import Mathlib

/-!
Shallow embedding of the computation-graph node abstraction
(torch/csrc/autograd/function.h) and the profiler subsystem
(torch/csrc/autograd/profiler.cpp).

Modelling conventions:
- C++ vectors / SmallVectors become Lean lists; container sizes are kept as
  plain Nat.  The uint32_t casts in num_inputs / add_input_metadata cannot
  truncate for any reachable container (at::SmallVector caps its size at a
  32-bit count and aborts on overflow), so no modular reduction is needed.
- Fallible C++ code (AT_CHECK / thrown std::runtime_error or std::logic_error)
  is rendered with Except.  Because a thrown C++ exception leaves the global
  profiler variables exactly as they were at the throw point, each profiler
  operation returns a pair (Except String result, state): the state component
  is meaningful on the error path too and records the globals at throw time.
- Shared nodes are referenced through abstract Nat identifiers where an Edge
  must point at a node.
- Opaque leaf types of the surrounding system (at::Type, hooks, PyObject)
  are represented by abstract identifiers.
-/

namespace torch.autograd

/-- Modelled from the spec: the Edge value type (edge.h is not under src/).
An Edge is a (node reference, input slot index) pair whose validity bit is
implicit: an Edge is invalid exactly when it was default-constructed, i.e.
carries no node reference.  Nodes are referenced by abstract identifiers. -/
structure Edge where
  fn : Option Nat
  input_nr : Nat
deriving DecidableEq

/-- Modelled from the spec: validity of an Edge — valid iff it actually
references a node (non-placeholder). -/
def Edge.is_valid (e : Edge) : Bool :=
  e.fn.isSome

/-- Modelled from the spec: the default-constructed (invalid placeholder)
Edge. -/
def Edge.defaultEdge : Edge :=
  ⟨none, 0⟩

/-- Modelled from the spec: the external Value abstraction consumed by this
core (variable.h is not under src/).  It exposes definedness, the
gradient-tracking flag and a settable gradient edge. -/
structure Variable where
  defined : Bool
  requires_grad : Bool
  gradient_edge : Edge
deriving DecidableEq

/-- Modelled from the spec: Value.setGradientEdge — records an Edge on the
value as its gradient edge. -/
def Variable.set_gradient_edge (v : Variable) (e : Edge) : Variable :=
  { v with gradient_edge := e }

/-- Modelled from the spec: the per-input descriptor (input_metadata.h is not
under src/).  The three constructors mirror the three ways
Function::add_input_metadata builds one: from an explicit
type/shape/device triple, from a tensor (the embedding keeps the supplied
value itself as the descriptor payload), or default-constructed as the
placeholder for an intentionally unused input. -/
inductive InputMetadata where
  | ofType (ty : Nat) (shape : List Nat) (device : Int)
  | ofTensor (t : Variable)
  | undefinedMeta
deriving DecidableEq

/-- The graph-node type of function.h.  Hooks and the Python peer object are
opaque to this core and appear as abstract identifiers; the lazily created
anomaly metadata is outside every claim and is omitted. -/
structure Function where
  sequence_nr_ : Nat
  next_edges_ : List Edge
  pyobj_ : Option Nat
  pre_hooks_ : List Nat
  post_hooks_ : List Nat
  input_metadata_ : List InputMetadata
deriving DecidableEq

/-- The Function constructor: a node starts with the given sequence number and
outgoing edges, zero inputs, no hooks and no Python peer. -/
def mkFunction (sequence_nr : Nat) (next_edges : List Edge) : Function :=
  ⟨sequence_nr, next_edges, none, [], [], []⟩

/-- Function::add_input_metadata(type, shape, device): appends a descriptor
and returns the index of the new input together with the updated node. -/
def Function.add_input_metadata (f : Function) (ty : Nat) (shape : List Nat)
    (device : Int) : Nat × Function :=
  (f.input_metadata_.length,
    { f with input_metadata_ :=
        f.input_metadata_ ++ [InputMetadata.ofType ty shape device] })

/-- Function::add_input_metadata(const at::Tensor&): appends a descriptor
derived from the tensor. -/
def Function.add_input_metadata_tensor (f : Function) (t : Variable) :
    Nat × Function :=
  (f.input_metadata_.length,
    { f with input_metadata_ := f.input_metadata_ ++ [InputMetadata.ofTensor t] })

/-- Function::add_input_metadata(undefined_input): appends the placeholder
descriptor for an input that will not be used. -/
def Function.add_input_metadata_undefined (f : Function) : Nat × Function :=
  (f.input_metadata_.length,
    { f with input_metadata_ := f.input_metadata_ ++ [InputMetadata.undefinedMeta] })

/-- Function::num_inputs. -/
def Function.num_inputs (f : Function) : Nat :=
  f.input_metadata_.length

/-- Function::input_metadata(index).  The C++ accessor performs an unchecked
vector subscript; the embedding returns none exactly where the C++ read
would be out of bounds (undefined behavior). -/
def Function.input_metadata (f : Function) (index : Nat) : Option InputMetadata :=
  f.input_metadata_.get? index

/-- Function::clear_input_metadata. -/
def Function.clear_input_metadata (f : Function) : Function :=
  { f with input_metadata_ := [] }

/-- Function::next_edge(index); unchecked subscript, as with input_metadata. -/
def Function.next_edge (f : Function) (index : Nat) : Option Edge :=
  f.next_edges_.get? index

/-- Function::set_next_edge(index, edge). -/
def Function.set_next_edge (f : Function) (index : Nat) (edge : Edge) : Function :=
  { f with next_edges_ := f.next_edges_.set index edge }

/-- Function::add_next_edge(edge). -/
def Function.add_next_edge (f : Function) (edge : Edge) : Function :=
  { f with next_edges_ := f.next_edges_ ++ [edge] }

/-- Function::set_next_edges(next_edges). -/
def Function.set_next_edges (f : Function) (next_edges : List Edge) : Function :=
  { f with next_edges_ := next_edges }

/-- Function::num_outputs. -/
def Function.num_outputs (f : Function) : Nat :=
  f.next_edges_.length

/-- Function::sequence_nr. -/
def Function.sequence_nr (f : Function) : Nat :=
  f.sequence_nr_

/-- Function::add_pre_hook (hooks are opaque identifiers here). -/
def Function.add_pre_hook (f : Function) (h : Nat) : Function :=
  { f with pre_hooks_ := f.pre_hooks_ ++ [h] }

/-- Function::add_post_hook. -/
def Function.add_post_hook (f : Function) (h : Nat) : Function :=
  { f with post_hooks_ := f.post_hooks_ ++ [h] }

/-- Function::set_pyobj. -/
def Function.set_pyobj (f : Function) (p : Option Nat) : Function :=
  { f with pyobj_ := p }

/-- Function::should_compute_output(size_t): AT_CHECK that the index is in
range, then report validity of the stored edge. -/
def Function.should_compute_output (f : Function) (output_edge_index : Nat) :
    Except String Bool :=
  if h : output_edge_index < f.num_outputs then
    Except.ok (f.next_edges_.get ⟨output_edge_index, h⟩).is_valid
  else
    Except.error "Index out of range"

/-- IndexRange from function.h: a half-open pair of size_t. -/
abbrev IndexRange := Nat × Nat

/-- The inner loop of the bulk should_compute_output overload: scan indices
lo, lo+1, ... below hi, returning true at the first active edge,
propagating the out-of-range error of the single-index call, and returning
false when the range is exhausted. -/
def Function.should_compute_output_from (f : Function) (lo hi : Nat) :
    Except String Bool :=
  if _h : lo < hi then
    match f.should_compute_output lo with
    | Except.error m => Except.error m
    | Except.ok true => Except.ok true
    | Except.ok false => f.should_compute_output_from (lo + 1) hi
  else
    Except.ok false
termination_by hi - lo
decreasing_by
  simp_wf
  omega

/-- Function::should_compute_output(initializer_list of IndexRange):
std::any_of over the ranges in order, each range scanned with the
single-index predicate; short-circuits on the first true. -/
def Function.should_compute_output_ranges (f : Function) :
    List IndexRange → Except String Bool
  | [] => Except.ok false
  | r :: rs =>
    match f.should_compute_output_from r.1 r.2 with
    | Except.error m => Except.error m
    | Except.ok true => Except.ok true
    | Except.ok false => f.should_compute_output_ranges rs

namespace detail

/-- detail::MakeNextFunctionList, applied to the flattened sequence of input
values (IterArgs flattens individual variables and containers of variables
in encounter order): a defined variable contributes its gradient edge, an
undefined one the default-constructed placeholder Edge. -/
def MakeNextFunctionList_apply : List Variable → List Edge
  | [] => []
  | v :: vs =>
    (if v.defined then v.gradient_edge else Edge.defaultEdge) ::
      MakeNextFunctionList_apply vs

end detail

/-- collect_next_edges: the GradMode::is_enabled flag (grad_mode.h is not
under src/; the spec describes it as a global boolean) is passed in
explicitly.  When it is off the function returns the empty edge list before
looking at any input value. -/
def collect_next_edges (grad_mode_enabled : Bool)
    (vars : List Variable) : List Edge :=
  if !grad_mode_enabled then []
  else detail.MakeNextFunctionList_apply vars

/-- any_variable_requires_grad: true iff some defined variable in the list
requires a gradient. -/
def any_variable_requires_grad (vars : List Variable) : Bool :=
  vars.any (fun v => v.defined && v.requires_grad)

/-- create_gradient_edge(variable, function): appends an input slot for the
variable and records (function, new slot index) as the variable's gradient
edge.  The shared_ptr to the node is rendered as the node identifier nid
that the produced Edge carries. -/
def create_gradient_edge (nid : Nat) (v : Variable)
    (function : Function) : Variable × Function :=
  let r := function.add_input_metadata_tensor v
  (v.set_gradient_edge ⟨some nid, r.1⟩, r.2)

/-- One mutating operation of the node's public interface, used to state
invariants quantified over every public operation. -/
inductive FunctionOp where
  | addTyped (ty : Nat) (shape : List Nat) (device : Int)
  | addTensor (t : Variable)
  | addUndefined
  | clearMetadata
  | setEdge (index : Nat) (edge : Edge)
  | addEdge (edge : Edge)
  | setEdges (es : List Edge)
  | addPre (h : Nat)
  | addPost (h : Nat)
  | setPy (p : Option Nat)
deriving DecidableEq

/-- Effect of one public mutating operation on the node. -/
def FunctionOp.applyOp : FunctionOp → Function → Function
  | FunctionOp.addTyped ty shape device, f => (f.add_input_metadata ty shape device).2
  | FunctionOp.addTensor t, f => (f.add_input_metadata_tensor t).2
  | FunctionOp.addUndefined, f => f.add_input_metadata_undefined.2
  | FunctionOp.clearMetadata, f => f.clear_input_metadata
  | FunctionOp.setEdge index edge, f => f.set_next_edge index edge
  | FunctionOp.addEdge edge, f => f.add_next_edge edge
  | FunctionOp.setEdges es, f => f.set_next_edges es
  | FunctionOp.addPre h, f => f.add_pre_hook h
  | FunctionOp.addPost h, f => f.add_post_hook h
  | FunctionOp.setPy p, f => f.set_pyobj p

/-- Runs a sequence of public operations left to right. -/
def applyOps (f : Function) : List FunctionOp → Function
  | [] => f
  | op :: ops => applyOps (op.applyOp f) ops

/-- One add_input_metadata call, in any of the three flavors. -/
inductive AddCall where
  | ofType (ty : Nat) (shape : List Nat) (device : Int)
  | ofTensor (t : Variable)
  | ofUndefined
deriving DecidableEq

/-- The pair (returned slot index, updated node) of one call. -/
def AddCall.result : AddCall → Function → Nat × Function
  | AddCall.ofType ty shape device, f => f.add_input_metadata ty shape device
  | AddCall.ofTensor t, f => f.add_input_metadata_tensor t
  | AddCall.ofUndefined, f => f.add_input_metadata_undefined

/-- The descriptor a call supplies, i.e. what it stores in the new slot. -/
def AddCall.stored : AddCall → InputMetadata
  | AddCall.ofType ty shape device => InputMetadata.ofType ty shape device
  | AddCall.ofTensor t => InputMetadata.ofTensor t
  | AddCall.ofUndefined => InputMetadata.undefinedMeta

/-- Runs a sequence of add_input_metadata calls left to right. -/
def runAddCalls (f : Function) : List AddCall → Function
  | [] => f
  | c :: cs => runAddCalls (c.result f).2 cs

namespace profiler

/-- The profiler state machine values of profiler.cpp / profiler.h. -/
inductive ProfilerState where
  | Disabled
  | CPU
  | CUDA
  | NVTX
deriving DecidableEq

/-- Event kinds recorded by the sampling backends. -/
inductive EventKind where
  | Mark
  | PushRange
  | PopRange
deriving DecidableEq

/-- Modelled from the spec: one recorded profiler event (the Event type lives
in profiler.h, not under src/).  Wall-clock timestamps are real time and
outside the embedding; the remaining payload is kind, name, recording
thread id and the device-timer flag passed to record. -/
structure Event where
  kind : EventKind
  name : String
  thread_id : Int
  record_cuda : Bool
deriving DecidableEq

/-- The profiler globals of profiler.cpp, viewed from one recording thread:
the process-wide state, the thread-id counter and registry (the registry
is rendered by whether this thread's list is registered: the
single-thread view the claims are about), this thread's thread_local
event list (none renders the null shared_ptr before first use) and
thread id, and the external NVTX sink as the ordered list of calls
forwarded to it. -/
structure ProfilerGlobals where
  state : ProfilerState
  next_thread_id : Nat
  registered : Bool
  event_list : Option (List Event)
  thread_id : Int
  nvtx_output : List (EventKind × String)
deriving DecidableEq

/-- The initial values of the profiler globals: Disabled, counter 0, empty
registry, null thread-local list, zero-initialized thread id. -/
def profilerInit : ProfilerGlobals :=
  ⟨ProfilerState.Disabled, 0, false, none, 0, []⟩

/-- getEventList(): on first use from this thread, create the event list,
assign the thread id from the global counter and register the list; later
calls return the existing list unchanged. -/
def getEventList (g : ProfilerGlobals) : ProfilerGlobals :=
  match g.event_list with
  | some _ => g
  | none =>
    { g with
        event_list := some []
        thread_id := Int.ofNat g.next_thread_id
        next_thread_id := g.next_thread_id + 1
        registered := true }

/-- Modelled from the spec: RangeEventList::record (profiler.h is not under
src/) appends one event to the thread's append-only list. -/
def record (g : ProfilerGlobals) (kind : EventKind) (name : String)
    (tid : Int) (record_cuda : Bool) : ProfilerGlobals :=
  { g with event_list := g.event_list.map (fun l => l ++ [⟨kind, name, tid, record_cuda⟩]) }

/-- mark(name, include_cuda = true): in NVTX state forward to the external
sink (or fail on a build without CUDA); otherwise record a Mark event on
this thread's list — note there is no Disabled early-return here.
use_cuda renders the USE_CUDA compile-time flag. -/
def mark (use_cuda : Bool) (name : String) (include_cuda : Bool)
    (g : ProfilerGlobals) : Except String Unit × ProfilerGlobals :=
  if g.state = ProfilerState.NVTX then
    if use_cuda then
      (Except.ok (), { g with nvtx_output := g.nvtx_output ++ [(EventKind.Mark, name)] })
    else
      (Except.error "mark called with NVTX tracing, but compiled without CUDA", g)
  else
    let g1 := getEventList g
    (Except.ok (),
      record g1 EventKind.Mark name g1.thread_id
        (include_cuda && decide (g.state = ProfilerState.CUDA)))

/-- pushRange(name): returns immediately while Disabled; in NVTX state
forwards to the external sink; otherwise records a PushRange event. -/
def pushRange (use_cuda : Bool) (name : String)
    (g : ProfilerGlobals) : Except String Unit × ProfilerGlobals :=
  if g.state = ProfilerState.Disabled then
    (Except.ok (), g)
  else if g.state = ProfilerState.NVTX then
    if use_cuda then
      (Except.ok (), { g with nvtx_output := g.nvtx_output ++ [(EventKind.PushRange, name)] })
    else
      (Except.error "pushRange called with NVTX tracing, but compiled without CUDA", g)
  else
    let g1 := getEventList g
    (Except.ok (),
      record g1 EventKind.PushRange name g1.thread_id
        (decide (g.state = ProfilerState.CUDA)))

/-- popRange(): returns immediately while Disabled; in NVTX state forwards to
the external sink; otherwise records a PopRange event with an empty name. -/
def popRange (use_cuda : Bool)
    (g : ProfilerGlobals) : Except String Unit × ProfilerGlobals :=
  if g.state = ProfilerState.Disabled then
    (Except.ok (), g)
  else if g.state = ProfilerState.NVTX then
    if use_cuda then
      (Except.ok (), { g with nvtx_output := g.nvtx_output ++ [(EventKind.PopRange, "")] })
    else
      (Except.error "popRange called with NVTX tracing, but compiled without CUDA", g)
  else
    let g1 := getEventList g
    (Except.ok (),
      record g1 EventKind.PopRange "" g1.thread_id
        (decide (g.state = ProfilerState.CUDA)))

/-- Sequencing of two profiler steps under C++ exception propagation: when
the first step threw, its error and the globals at throw time propagate
and the second step never runs. -/
def andThen (r : Except String Unit × ProfilerGlobals)
    (next : ProfilerGlobals → Except String Unit × ProfilerGlobals) :
    Except String Unit × ProfilerGlobals :=
  match r with
  | (Except.ok _, g1) => next g1
  | (Except.error m, g1) => (Except.error m, g1)

/-- Runs the given profiler operation n times in sequence, stopping at the
first error.  This renders both the for-loop of onEachDevice (the device
index only selects the CUDA device, which is outside the embedding) and
the 5-iteration warmup loop of enableProfiler. -/
def repeatOp (op : ProfilerGlobals → Except String Unit × ProfilerGlobals) :
    Nat → ProfilerGlobals → Except String Unit × ProfilerGlobals
  | 0, g => (Except.ok (), g)
  | n + 1, g => andThen (op g) (repeatOp op n)

/-- enableProfiler(new_state): asserts the new state is not Disabled, rejects
NVTX on a build without CUDA, rejects changing the kind of profiling while
the profiler is running, then sets the state; on a CUDA build entering
CUDA state emits the per-device warmup and start marks
(cudaDeviceSynchronize only affects timing and is outside the embedding);
finally marks __start_profile with include_cuda = false. -/
def enableProfiler (use_cuda : Bool) (device_count : Nat)
    (new_state : ProfilerState) (g : ProfilerGlobals) :
    Except String Unit × ProfilerGlobals :=
  if new_state = ProfilerState.Disabled then
    (Except.error "profiler state assertion failed", g)
  else if !use_cuda && decide (new_state = ProfilerState.NVTX) then
    (Except.error "cannot use NVTX profiler - PyTorch was compiled without CUDA", g)
  else if decide (g.state ≠ ProfilerState.Disabled) && decide (new_state ≠ g.state) then
    (Except.error "cannot change kind of profiling (e.g. NVTX to CPU) while profiler is running", g)
  else
    andThen
      (if use_cuda && decide (new_state = ProfilerState.CUDA) then
        andThen
          (repeatOp (repeatOp (mark use_cuda "__cuda_startup" true) device_count) 5
            { g with state := new_state })
          (repeatOp (mark use_cuda "__cuda_start_event" true) device_count)
      else (Except.ok (), { g with state := new_state }))
      (mark use_cuda "__start_profile" false)

/-- The consolidated report type: one entry per registered thread list. -/
abbrev thread_event_lists := List (List Event)

/-- disableProfiler(): fails while already Disabled; otherwise marks
__stop_profile, flips the state to Disabled, and for the NVTX backend
returns an empty report while the sampling backends consolidate the
registry.  In the single-recording-thread view the registry holds at most
this thread's list; a live thread's thread_local shared_ptr keeps the
use count above one, so the garbage-collection branch never fires here. -/
def disableProfiler (use_cuda : Bool) (g : ProfilerGlobals) :
    Except String thread_event_lists × ProfilerGlobals :=
  if g.state = ProfilerState.Disabled then
    (Except.error "cannot disable profiler when it is not running", g)
  else
    let old_state := g.state
    match mark use_cuda "__stop_profile" true g with
    | (Except.error m, g1) => (Except.error m, g1)
    | (Except.ok _, g1) =>
      let g2 := { g1 with state := ProfilerState.Disabled }
      if old_state = ProfilerState.NVTX then
        (Except.ok [], g2)
      else
        match g2.event_list, g2.registered with
        | some l, true => (Except.ok [l], g2)
        | _, _ => (Except.ok [], g2)

end profiler

/-!
Helper lemmas shared by the claim theorems.
-/

theorem AddCall.result_fst (c : AddCall) (f : Function) :
    (c.result f).1 = f.num_inputs := by
  cases c <;> rfl

theorem AddCall.result_metadata (c : AddCall) (f : Function) :
    (c.result f).2.input_metadata_ = f.input_metadata_ ++ [c.stored] := by
  cases c <;> rfl

theorem runAddCalls_metadata (cs : List AddCall) :
    ∀ f : Function, (runAddCalls f cs).input_metadata_ =
      f.input_metadata_ ++ cs.map AddCall.stored := by
  induction cs with
  | nil => intro f; simp [runAddCalls]
  | cons c cs ih =>
    intro f
    simp [runAddCalls, ih, AddCall.result_metadata]

theorem FunctionOp.applyOp_metadata (op : FunctionOp) (f : Function)
    (hop : op ≠ FunctionOp.clearMetadata) :
    ∃ s, (op.applyOp f).input_metadata_ = f.input_metadata_ ++ s := by
  cases op with
  | clearMetadata => exact absurd rfl hop
  | addTyped ty shape device => exact ⟨_, rfl⟩
  | addTensor t => exact ⟨_, rfl⟩
  | addUndefined => exact ⟨_, rfl⟩
  | setEdge index edge => exact ⟨[], by simp [FunctionOp.applyOp, Function.set_next_edge]⟩
  | addEdge edge => exact ⟨[], by simp [FunctionOp.applyOp, Function.add_next_edge]⟩
  | setEdges es => exact ⟨[], by simp [FunctionOp.applyOp, Function.set_next_edges]⟩
  | addPre h => exact ⟨[], by simp [FunctionOp.applyOp, Function.add_pre_hook]⟩
  | addPost h => exact ⟨[], by simp [FunctionOp.applyOp, Function.add_post_hook]⟩
  | setPy p => exact ⟨[], by simp [FunctionOp.applyOp, Function.set_pyobj]⟩

theorem applyOps_metadata_extends (ops : List FunctionOp) :
    ∀ f : Function, FunctionOp.clearMetadata ∉ ops →
      ∃ s, (applyOps f ops).input_metadata_ = f.input_metadata_ ++ s := by
  induction ops with
  | nil => intro f _; exact ⟨[], by simp [applyOps]⟩
  | cons op ops ih =>
    intro f hno
    rw [List.mem_cons, not_or] at hno
    obtain ⟨hne, hno2⟩ := hno
    obtain ⟨s1, hs1⟩ := FunctionOp.applyOp_metadata op f (fun h => hne h.symm)
    obtain ⟨s2, hs2⟩ := ih (op.applyOp f) hno2
    exact ⟨s1 ++ s2, by simp [applyOps, hs2, hs1]⟩

/-!
Claim theorems.
-/

/-- C2 counterexample: clear_input_metadata is an operation of the public
interface that shrinks the input-descriptor sequence — after one
add_input_metadata call the length drops from 1 back to 0 and the slot-0
descriptor is gone, so the length is not monotone over the node's
lifetime as the claim states. -/
theorem C2_counterexample :
    ((mkFunction 0 []).add_input_metadata_undefined).2.num_inputs = 1 ∧
    ((mkFunction 0 []).add_input_metadata_undefined).2.clear_input_metadata.num_inputs = 0 ∧
    ((mkFunction 0 []).add_input_metadata_undefined).2.clear_input_metadata.input_metadata 0 = none :=
  ⟨rfl, rfl, rfl⟩

/-- C2 amended: under every operation of the node's public interface other
than clear_input_metadata the input-descriptor sequence only grows, and an
input slot, once assigned, keeps its descriptor; clear_input_metadata (the
counterexample) removes every descriptor at once. -/
theorem C2_amended_metadata_stable (f : Function) (ops : List FunctionOp)
    (hno : FunctionOp.clearMetadata ∉ ops) :
    f.num_inputs ≤ (applyOps f ops).num_inputs ∧
    ∀ i, i < f.num_inputs → (applyOps f ops).input_metadata i = f.input_metadata i := by
  obtain ⟨s, hs⟩ := applyOps_metadata_extends ops f hno
  constructor
  · simp [Function.num_inputs, hs]
  · intro i hi
    simp only [Function.input_metadata, hs, List.get?_eq_getElem?]
    exact List.getElem?_append_left hi

/-- C2 witness: a concrete instantiation of the amended statement. -/
theorem C2_amended_witness :
    (⟨0, [], none, [], [], [InputMetadata.undefinedMeta]⟩ : Function).num_inputs ≤
      (applyOps ⟨0, [], none, [], [], [InputMetadata.undefinedMeta]⟩
        [FunctionOp.addUndefined]).num_inputs ∧
    (applyOps (⟨0, [], none, [], [], [InputMetadata.undefinedMeta]⟩ : Function)
        [FunctionOp.addUndefined]).input_metadata 0 =
      (⟨0, [], none, [], [], [InputMetadata.undefinedMeta]⟩ : Function).input_metadata 0 := by
  obtain ⟨h1, h2⟩ := C2_amended_metadata_stable
    ⟨0, [], none, [], [], [InputMetadata.undefinedMeta]⟩ [FunctionOp.addUndefined] (by decide)
  exact ⟨h1, h2 0 (by decide)⟩

/-- C3: should_compute_output fails with the out-of-range error for every
index at or above num_outputs, and for an in-range index returns true
exactly when the stored edge is valid (non-placeholder). -/
theorem C3_should_compute_output_single (f : Function) (i : Nat) :
    (f.num_outputs ≤ i →
      f.should_compute_output i = Except.error "Index out of range") ∧
    (∀ h : i < f.num_outputs,
      f.should_compute_output i = Except.ok ((f.next_edges_.get ⟨i, h⟩).is_valid)) := by
  constructor
  · intro hle
    rw [Function.should_compute_output, dif_neg (by omega)]
  · intro h
    rw [Function.should_compute_output, dif_pos h]

/-- C3 witness: node with a single placeholder edge — index 0 reports false,
index 1 is out of range. -/
theorem C3_witness :
    (mkFunction 0 [Edge.defaultEdge]).should_compute_output 0 = Except.ok false ∧
    (mkFunction 0 [Edge.defaultEdge]).should_compute_output 1 =
      Except.error "Index out of range" := by
  obtain ⟨_, hv⟩ := C3_should_compute_output_single (mkFunction 0 [Edge.defaultEdge]) 0
  obtain ⟨he, _⟩ := C3_should_compute_output_single (mkFunction 0 [Edge.defaultEdge]) 1
  exact ⟨hv (by decide), he (by decide)⟩

theorem should_compute_output_from_eq (f : Function) (lo hi : Nat) :
    f.should_compute_output_from lo hi =
      if _h : lo < hi then
        match f.should_compute_output lo with
        | Except.error m => Except.error m
        | Except.ok true => Except.ok true
        | Except.ok false => f.should_compute_output_from (lo + 1) hi
      else Except.ok false := by
  rw [Function.should_compute_output_from]

theorem should_compute_output_from_ok (f : Function) :
    ∀ n lo hi, hi - lo = n → hi ≤ f.num_outputs →
      ∃ b, f.should_compute_output_from lo hi = Except.ok b ∧
        (b = true ↔ ∃ i, lo ≤ i ∧ i < hi ∧
          f.should_compute_output i = Except.ok true) := by
  intro n
  induction n with
  | zero =>
    intro lo hi hn _
    have hnl : ¬ lo < hi := by omega
    refine ⟨false, ?_, ?_⟩
    · rw [should_compute_output_from_eq, dif_neg hnl]
    · constructor
      · intro hF; exact absurd hF (by simp)
      · rintro ⟨i, h1, h2, _⟩
        exact absurd h2 (by omega)
  | succ n ih =>
    intro lo hi hn hb
    have hlt : lo < hi := by omega
    have hlo_lt : lo < f.num_outputs := lt_of_lt_of_le hlt hb
    have hsingle : f.should_compute_output lo =
        Except.ok ((f.next_edges_.get ⟨lo, hlo_lt⟩).is_valid) := by
      rw [Function.should_compute_output, dif_pos hlo_lt]
    obtain ⟨b2, hb2, hiff⟩ := ih (lo + 1) hi (by omega) hb
    by_cases hv : (f.next_edges_.get ⟨lo, hlo_lt⟩).is_valid = true
    · refine ⟨true, ?_, ?_⟩
      · rw [should_compute_output_from_eq, dif_pos hlt, hsingle, hv]
      · refine iff_of_true rfl ⟨lo, Nat.le_refl lo, hlt, ?_⟩
        rw [hsingle, hv]
    · have hvf : (f.next_edges_.get ⟨lo, hlo_lt⟩).is_valid = false := by
        simpa using hv
      refine ⟨b2, ?_, ?_⟩
      · rw [should_compute_output_from_eq, dif_pos hlt, hsingle, hvf]
        exact hb2
      · rw [hiff]
        constructor
        · rintro ⟨i, h1, h2, h3⟩
          exact ⟨i, by omega, h2, h3⟩
        · rintro ⟨i, h1, h2, h3⟩
          rcases Nat.eq_or_lt_of_le h1 with he | hlt2
          · exfalso
            rw [← he, hsingle, hvf] at h3
            exact absurd (Except.ok.inj h3) (by simp)
          · exact ⟨i, hlt2, h2, h3⟩

/-- C4 counterexample: on a node with exactly one valid outgoing edge, the
range list [[5,6), [0,1)] contains index 0 whose single-index predicate is
true, yet the bulk overload does not return true — scanning the earlier
range [5,6) hits the out-of-range failure of the single-index call first,
so the stated biconditional fails at this input. -/
theorem C4_counterexample :
    (mkFunction 0 [⟨some 0, 0⟩]).should_compute_output 0 = Except.ok true ∧
    (mkFunction 0 [⟨some 0, 0⟩]).should_compute_output_ranges [(5, 6), (0, 1)] =
      Except.error "Index out of range" := by
  constructor
  · rfl
  · simp [Function.should_compute_output_ranges, Function.should_compute_output_from,
      Function.should_compute_output, Function.num_outputs, mkFunction]

/-- C4 amended: when every supplied range lies within the node's output
count, the bulk overload never fails and returns true exactly when some
index inside some supplied range satisfies the single-index predicate (in
particular it returns false for an empty range list or all-empty ranges);
a range reaching an out-of-range index before an active one is found makes
the call fail instead, as the counterexample shows. -/
theorem C4_amended_ranges (f : Function) (idxs : List IndexRange)
    (hb : ∀ r ∈ idxs, r.2 ≤ f.num_outputs) :
    ∃ b, f.should_compute_output_ranges idxs = Except.ok b ∧
      (b = true ↔ ∃ i r, r ∈ idxs ∧ r.1 ≤ i ∧ i < r.2 ∧
        f.should_compute_output i = Except.ok true) := by
  induction idxs with
  | nil =>
    exact ⟨false, rfl, by simp⟩
  | cons r rs ih =>
    obtain ⟨b1, hb1, hiff1⟩ := should_compute_output_from_ok f (r.2 - r.1) r.1 r.2 rfl
      (hb r (List.mem_cons_self r rs))
    obtain ⟨b2, hb2, hiff2⟩ := ih (fun q hq => hb q (List.mem_cons_of_mem r hq))
    cases b1 with
    | true =>
      refine ⟨true, ?_, ?_⟩
      · simp [Function.should_compute_output_ranges, hb1]
      · refine iff_of_true rfl ?_
        obtain ⟨i, h1, h2, h3⟩ := hiff1.mp rfl
        exact ⟨i, r, List.mem_cons_self r rs, h1, h2, h3⟩
    | false =>
      refine ⟨b2, ?_, ?_⟩
      · simp [Function.should_compute_output_ranges, hb1, hb2]
      · rw [hiff2]
        constructor
        · rintro ⟨i, q, hm, h1, h2, h3⟩
          exact ⟨i, q, List.mem_cons_of_mem r hm, h1, h2, h3⟩
        · rintro ⟨i, q, hm, h1, h2, h3⟩
          rcases List.mem_cons.mp hm with he | hm2
          · exfalso
            have hFT : false = true := hiff1.mpr ⟨i, he ▸ h1, he ▸ h2, h3⟩
            simp at hFT
          · exact ⟨i, q, hm2, h1, h2, h3⟩

/-- C4 witness: a concrete in-bounds instantiation of the amended statement. -/
theorem C4_amended_witness :
    ∃ b, (mkFunction 0 [⟨some 0, 0⟩]).should_compute_output_ranges [(0, 1)] = Except.ok b ∧
      (b = true ↔ ∃ i r, r ∈ [((0 : Nat), (1 : Nat))] ∧ r.1 ≤ i ∧ i < r.2 ∧
        (mkFunction 0 [⟨some 0, 0⟩]).should_compute_output i = Except.ok true) :=
  C4_amended_ranges (mkFunction 0 [⟨some 0, 0⟩]) [(0, 1)] (by decide)

theorem MakeNextFunctionList_apply_eq_map (vars : List Variable) :
    detail.MakeNextFunctionList_apply vars =
      vars.map (fun v => if v.defined then v.gradient_edge else Edge.defaultEdge) := by
  induction vars with
  | nil => rfl
  | cons v vs ih => simp [detail.MakeNextFunctionList_apply, ih]

/-- C6: with gradient tracking enabled the result has exactly one edge per
flattened input value, in encounter order: at each position the gradient
edge of a defined value, the default-constructed invalid Edge for an
undefined one. -/
theorem C6_collect_next_edges_enabled (vars : List Variable) :
    (collect_next_edges true vars).length = vars.length ∧
    ∀ k (h : k < vars.length),
      (collect_next_edges true vars).get? k =
        some (if (vars.get ⟨k, h⟩).defined then (vars.get ⟨k, h⟩).gradient_edge
              else Edge.defaultEdge) := by
  constructor
  · simp [collect_next_edges, MakeNextFunctionList_apply_eq_map]
  · intro k h
    have hc : collect_next_edges true vars = detail.MakeNextFunctionList_apply vars := rfl
    rw [hc, MakeNextFunctionList_apply_eq_map]
    simp only [List.get?_eq_getElem?, List.getElem?_map, List.get_eq_getElem]
    rw [List.getElem?_eq_getElem h]
    rfl

/-- C6 witness: one defined and one undefined value, in order. -/
theorem C6_witness :
    (collect_next_edges true [⟨true, true, ⟨some 3, 1⟩⟩, ⟨false, false, ⟨some 9, 9⟩⟩]).length = 2 ∧
    (collect_next_edges true [⟨true, true, ⟨some 3, 1⟩⟩, ⟨false, false, ⟨some 9, 9⟩⟩]).get? 0 =
      some ⟨some 3, 1⟩ ∧
    (collect_next_edges true [⟨true, true, ⟨some 3, 1⟩⟩, ⟨false, false, ⟨some 9, 9⟩⟩]).get? 1 =
      some Edge.defaultEdge := by
  obtain ⟨h1, h2⟩ := C6_collect_next_edges_enabled
    [⟨true, true, ⟨some 3, 1⟩⟩, ⟨false, false, ⟨some 9, 9⟩⟩]
  exact ⟨h1, h2 0 (by decide), h2 1 (by decide)⟩

/-- C5: with gradient tracking disabled, collect_next_edges is the empty list
no matter what the inputs are — the statement over every input list is the
shallow rendering of the traversal never being entered. -/
theorem C5_collect_next_edges_disabled (vars : List Variable) :
    collect_next_edges false vars = [] :=
  rfl

/-- C8: create_gradient_edge grows the node's input count by exactly one and
afterwards the variable's gradient edge is the pair of the node and the
slot index that num_inputs had before the call. -/
theorem C8_create_gradient_edge (nid : Nat) (v : Variable) (f : Function) :
    (create_gradient_edge nid v f).2.num_inputs = f.num_inputs + 1 ∧
    (create_gradient_edge nid v f).1.gradient_edge = ⟨some nid, f.num_inputs⟩ := by
  constructor
  · simp [create_gradient_edge, Function.add_input_metadata_tensor, Function.num_inputs]
  · rfl

/-- C9: after any sequence of N add_input_metadata calls, in any mix of the
three flavors, on a freshly constructed node: num_inputs equals N, the
k-th call returned the input count as it stood just before that call
(which is k), and slot k yields the descriptor the k-th call supplied. -/
theorem C9_add_input_metadata_accumulates (seq : Nat) (edges : List Edge)
    (calls : List AddCall) :
    (runAddCalls (mkFunction seq edges) calls).num_inputs = calls.length ∧
    (∀ k (h : k < calls.length),
      ((calls.get ⟨k, h⟩).result
        (runAddCalls (mkFunction seq edges) (calls.take k))).1 = k) ∧
    (∀ k (h : k < calls.length),
      (runAddCalls (mkFunction seq edges) calls).input_metadata k =
        some ((calls.get ⟨k, h⟩).stored)) := by
  refine ⟨?_, ?_, ?_⟩
  · simp [Function.num_inputs, runAddCalls_metadata, mkFunction]
  · intro k h
    rw [AddCall.result_fst]
    simp only [Function.num_inputs, runAddCalls_metadata, mkFunction]
    simp [Nat.min_eq_left (Nat.le_of_lt h)]
  · intro k h
    simp only [Function.input_metadata, runAddCalls_metadata, mkFunction,
      List.nil_append, List.get?_eq_getElem?, List.getElem?_map, List.get_eq_getElem]
    rw [List.getElem?_eq_getElem h]
    rfl

namespace profiler

theorem getEventList_some (g : ProfilerGlobals) (l : List Event)
    (hl : g.event_list = some l) : getEventList g = g := by
  unfold getEventList
  rw [hl]

theorem andThen_ok (g : ProfilerGlobals)
    (next : ProfilerGlobals → Except String Unit × ProfilerGlobals) :
    andThen (Except.ok (), g) next = next g :=
  rfl

theorem mark_some (use_cuda : Bool) (name : String) (ic : Bool)
    (g : ProfilerGlobals) (l : List Event)
    (hn : g.state ≠ ProfilerState.NVTX) (hl : g.event_list = some l) :
    mark use_cuda name ic g =
      (Except.ok (),
        { g with event_list := some (l ++ [⟨EventKind.Mark, name, g.thread_id, ic && decide (g.state = ProfilerState.CUDA)⟩]) }) := by
  rw [mark, if_neg hn, getEventList_some g l hl]
  simp [record, hl]

theorem mark_appends_cuda (use_cuda : Bool) (name : String) (ic : Bool) :
    ∀ (g : ProfilerGlobals) (l : List Event),
      g.state = ProfilerState.CUDA → g.event_list = some l →
      ∃ s, mark use_cuda name ic g =
        (Except.ok (), { g with event_list := some (l ++ s) }) := by
  intro g l hs hl
  refine ⟨[⟨EventKind.Mark, name, g.thread_id, ic && decide (g.state = ProfilerState.CUDA)⟩], ?_⟩
  exact mark_some use_cuda name ic g l (by rw [hs]; simp) hl

theorem repeatOp_appends (op : ProfilerGlobals → Except String Unit × ProfilerGlobals)
    (hop : ∀ (g : ProfilerGlobals) (l : List Event),
      g.state = ProfilerState.CUDA → g.event_list = some l →
      ∃ s, op g = (Except.ok (), { g with event_list := some (l ++ s) })) :
    ∀ (k : Nat) (g : ProfilerGlobals) (l : List Event),
      g.state = ProfilerState.CUDA → g.event_list = some l →
      ∃ s, repeatOp op k g = (Except.ok (), { g with event_list := some (l ++ s) }) := by
  intro k
  induction k with
  | zero =>
    intro g l hs hl
    refine ⟨[], ?_⟩
    rw [List.append_nil, ← hl]
    rfl
  | succ k ih =>
    intro g l hs hl
    obtain ⟨s1, h1⟩ := hop g l hs hl
    obtain ⟨s2, h2⟩ := ih { g with event_list := some (l ++ s1) } (l ++ s1) hs rfl
    refine ⟨s1 ++ s2, ?_⟩
    simp only [repeatOp]
    rw [h1, andThen_ok, h2]
    simp [List.append_assoc]

/-- C1 counterexample: starting from the initial globals (profiler Disabled,
this thread never registered), a single mark call records a Mark event,
registers the thread's event list and bumps the thread-id counter — mark
has no Disabled early-return, contradicting the claim for mark. -/
theorem C1_counterexample :
    profilerInit.state = ProfilerState.Disabled ∧
    profilerInit.event_list = none ∧
    profilerInit.registered = false ∧
    (mark false "m" true profilerInit).2 =
      ⟨ProfilerState.Disabled, 1, true, some [⟨EventKind.Mark, "m", 0, false⟩], 0, []⟩ :=
  ⟨rfl, rfl, rfl, rfl⟩

/-- C1 amended: while the ProfilerState is Disabled, pushRange and popRange
return immediately — no event appended, registry and thread-id counter
untouched; mark, by contrast, still records a Mark event on the thread's
event list (registering the list first if this thread had none). -/
theorem C1_amended_disabled_recording (use_cuda : Bool) (name : String)
    (g : ProfilerGlobals) (hd : g.state = ProfilerState.Disabled) :
    pushRange use_cuda name g = (Except.ok (), g) ∧
    popRange use_cuda g = (Except.ok (), g) ∧
    ∀ l, g.event_list = some l → ∀ ic,
      (mark use_cuda name ic g).2 =
        { g with event_list := some (l ++ [⟨EventKind.Mark, name, g.thread_id, false⟩]) } := by
  refine ⟨?_, ?_, ?_⟩
  · rw [pushRange, if_pos hd]
  · rw [popRange, if_pos hd]
  · intro l hl ic
    rw [mark_some use_cuda name ic g l (by rw [hd]; simp) hl]
    simp [hd]

/-- C1 witness: the amended statement at a concrete Disabled state with an
already-registered empty event list. -/
theorem C1_amended_witness :
    pushRange false "a" ⟨ProfilerState.Disabled, 3, true, some [], 5, []⟩ =
      (Except.ok (), ⟨ProfilerState.Disabled, 3, true, some [], 5, []⟩) ∧
    popRange false ⟨ProfilerState.Disabled, 3, true, some [], 5, []⟩ =
      (Except.ok (), ⟨ProfilerState.Disabled, 3, true, some [], 5, []⟩) ∧
    (mark false "a" true ⟨ProfilerState.Disabled, 3, true, some [], 5, []⟩).2 =
      ⟨ProfilerState.Disabled, 3, true, some [⟨EventKind.Mark, "a", 5, false⟩], 5, []⟩ := by
  obtain ⟨h1, h2, h3⟩ := C1_amended_disabled_recording false "a"
    ⟨ProfilerState.Disabled, 3, true, some [], 5, []⟩ rfl
  exact ⟨h1, h2, h3 [] rfl true⟩

/-- C7: disableProfiler called while the state is already Disabled fails with
an error and leaves the globals unchanged; enableProfiler called with an
active state different from the currently active state fails with an
error and leaves the globals unchanged. -/
theorem C7_state_machine_errors (use_cuda : Bool) (device_count : Nat)
    (g : ProfilerGlobals) (new_state : ProfilerState) :
    (g.state = ProfilerState.Disabled →
      disableProfiler use_cuda g =
        (Except.error "cannot disable profiler when it is not running", g)) ∧
    (g.state ≠ ProfilerState.Disabled → new_state ≠ ProfilerState.Disabled →
      new_state ≠ g.state →
      ∃ m, enableProfiler use_cuda device_count new_state g = (Except.error m, g)) := by
  constructor
  · intro hd
    rw [disableProfiler, if_pos hd]
  · intro hact hnd hne
    rw [enableProfiler, if_neg hnd]
    cases hcu : (!use_cuda && decide (new_state = ProfilerState.NVTX)) with
    | true =>
      exact ⟨"cannot use NVTX profiler - PyTorch was compiled without CUDA", by rw [if_pos rfl]⟩
    | false =>
      rw [if_neg (by simp), if_pos (by simp only [Bool.and_eq_true, decide_eq_true_eq]; exact ⟨hact, hne⟩)]
      exact ⟨_, rfl⟩

/-- C7 witness: both failure cases at concrete states. -/
theorem C7_witness :
    disableProfiler false profilerInit =
      (Except.error "cannot disable profiler when it is not running", profilerInit) ∧
    ∃ m, enableProfiler false 0 ProfilerState.CUDA ⟨ProfilerState.CPU, 0, false, none, 0, []⟩ =
      (Except.error m, ⟨ProfilerState.CPU, 0, false, none, 0, []⟩) := by
  constructor
  · exact (C7_state_machine_errors false 0 profilerInit ProfilerState.CPU).1 rfl
  · exact (C7_state_machine_errors false 0 ⟨ProfilerState.CPU, 0, false, none, 0, []⟩
      ProfilerState.CUDA).2 (by decide) (by decide) (by decide)

/-- C10: enableProfiler called with the same active state as the currently
active ProfilerState does not fail: the call is accepted, the state stays
at that same active state, and the __start_profile mark is emitted
again — recorded on the thread's event list by the sampling backends,
forwarded to the external sink by NVTX. -/
theorem C10_reenable_same_state (use_cuda : Bool) (device_count : Nat)
    (g : ProfilerGlobals) (l : List Event)
    (hact : g.state ≠ ProfilerState.Disabled)
    (hcuda : g.state = ProfilerState.NVTX → use_cuda = true)
    (hl : g.event_list = some l) :
    ∃ g1, enableProfiler use_cuda device_count g.state g = (Except.ok (), g1) ∧
      g1.state = g.state ∧
      (g.state ≠ ProfilerState.NVTX →
        ∃ pre, g1.event_list =
          some (l ++ pre ++ [⟨EventKind.Mark, "__start_profile", g.thread_id, false⟩])) ∧
      (g.state = ProfilerState.NVTX →
        g1.nvtx_output = g.nvtx_output ++ [(EventKind.Mark, "__start_profile")]) := by
  have heta : { g with state := g.state } = g := rfl
  have hB : ¬ ((!use_cuda && decide (g.state = ProfilerState.NVTX)) = true) := by
    by_cases hn : g.state = ProfilerState.NVTX
    · rw [hcuda hn]
      simp
    · simp [hn]
  have hC : ¬ ((decide (g.state ≠ ProfilerState.Disabled) && decide (g.state ≠ g.state)) = true) := by
    simp
  by_cases hnv : g.state = ProfilerState.NVTX
  · have hu := hcuda hnv
    have hcc : ¬ ((use_cuda && decide (g.state = ProfilerState.CUDA)) = true) := by
      simp [hnv]
    have e1 : enableProfiler use_cuda device_count g.state g =
        mark use_cuda "__start_profile" false g := by
      rw [enableProfiler, if_neg hact, if_neg hB, if_neg hC, heta, if_neg hcc, andThen_ok]
    rw [mark, if_pos hnv, if_pos hu] at e1
    exact ⟨_, e1, rfl, fun h => absurd hnv h, fun _ => rfl⟩
  · by_cases hcc : (use_cuda && decide (g.state = ProfilerState.CUDA)) = true
    · have hcS : g.state = ProfilerState.CUDA := by
        have h2 := (Bool.and_eq_true _ _).mp hcc
        exact of_decide_eq_true h2.2
      obtain ⟨sA, hA⟩ := repeatOp_appends
        (repeatOp (mark use_cuda "__cuda_startup" true) device_count)
        (fun g2 l2 hs2 hl2 => repeatOp_appends _
          (mark_appends_cuda use_cuda "__cuda_startup" true) device_count g2 l2 hs2 hl2)
        5 g l hcS hl
      obtain ⟨sB, hB2⟩ := repeatOp_appends _
        (mark_appends_cuda use_cuda "__cuda_start_event" true) device_count
        { g with event_list := some (l ++ sA) } (l ++ sA) hcS rfl
      have hB2f : repeatOp (mark use_cuda "__cuda_start_event" true) device_count
          { g with event_list := some (l ++ sA) } =
          (Except.ok (), { g with event_list := some ((l ++ sA) ++ sB) }) := hB2
      have e2 : mark use_cuda "__start_profile" false
          { g with event_list := some ((l ++ sA) ++ sB) } =
          (Except.ok (),
            { g with event_list := some (((l ++ sA) ++ sB) ++ [⟨EventKind.Mark, "__start_profile", g.thread_id, false⟩]) }) :=
        mark_some use_cuda "__start_profile" false _ ((l ++ sA) ++ sB) hnv rfl
      have e1 : enableProfiler use_cuda device_count g.state g =
          andThen
            (andThen
              (repeatOp (repeatOp (mark use_cuda "__cuda_startup" true) device_count) 5 g)
              (repeatOp (mark use_cuda "__cuda_start_event" true) device_count))
            (mark use_cuda "__start_profile" false) := by
        rw [enableProfiler, if_neg hact, if_neg hB, if_neg hC, heta, if_pos hcc]
      rw [hA, andThen_ok, hB2f, andThen_ok, e2] at e1
      refine ⟨_, e1, rfl, fun _ => ⟨sA ++ sB, ?_⟩, fun h => absurd h hnv⟩
      simp [List.append_assoc]
    · have e1 : enableProfiler use_cuda device_count g.state g =
          mark use_cuda "__start_profile" false g := by
        rw [enableProfiler, if_neg hact, if_neg hB, if_neg hC, heta, if_neg hcc, andThen_ok]
      rw [mark_some use_cuda "__start_profile" false g l hnv hl] at e1
      refine ⟨_, e1, rfl, fun _ => ⟨[], ?_⟩, fun h => absurd h hnv⟩
      simp [Bool.false_and]

/-- C10 witness: re-enabling the CPU backend while CPU profiling is active. -/
theorem C10_witness :
    ∃ g1, enableProfiler false 0 ProfilerState.CPU
        ⟨ProfilerState.CPU, 0, false, some [], 0, []⟩ = (Except.ok (), g1) ∧
      g1.state = ProfilerState.CPU := by
  obtain ⟨g1, h1, h2, h3, h4⟩ := C10_reenable_same_state false 0
    ⟨ProfilerState.CPU, 0, false, some [], 0, []⟩ [] (by decide) (by decide) rfl
  exact ⟨g1, h1, h2⟩

end profiler

/-- C9 witness: two calls of different flavors on a fresh node. -/
theorem C9_witness :
    (runAddCalls (mkFunction 7 []) [AddCall.ofUndefined, AddCall.ofType 1 [2] 0]).num_inputs = 2 ∧
    ((AddCall.ofType 1 [2] 0).result (runAddCalls (mkFunction 7 []) [AddCall.ofUndefined])).1 = 1 ∧
    (runAddCalls (mkFunction 7 []) [AddCall.ofUndefined, AddCall.ofType 1 [2] 0]).input_metadata 1 =
      some (InputMetadata.ofType 1 [2] 0) := by
  obtain ⟨h1, h2, h3⟩ := C9_add_input_metadata_accumulates 7 []
    [AddCall.ofUndefined, AddCall.ofType 1 [2] 0]
  exact ⟨h1, h2 1 (by decide), h3 1 (by decide)⟩

end torch.autograd
